import Mathlib

/-!
# Verification of the render-runtime navigation state machine

Shallow embedding of the `RenderProvider` component
(`src/render/components/Link.js`, second document: the provider class) and of
the small utilities it relies on.  JavaScript objects used as string-keyed
records are embedded as association lists (`SMap`), where lookup finds the
first matching key; the JS object-spread `\x7b...a, ...b\x7d` is then
`b ++ a`.  JS `Set`s are embedded as duplicate-free lists with an `add` that
appends a missing element.  Optional / possibly-`undefined` JS values are
`Option`; a possibly-falsy string (`maybePage || route.id`) is a `String`
where `""` plays the role of the falsy value.
-/

namespace RenderRuntime

/-- A JS object used as a string-keyed dictionary: an association list,
lookup returns the first binding. -/
abbrev SMap (V : Type) : Type := List (String × V)

/-- Property lookup `m[k]`: `some v` when the key is present, `none` when it
is absent (JS `undefined`). -/
def SMap.get {V : Type} (k : String) : SMap V → Option V
  | [] => none
  | (k2, v) :: rest => if k = k2 then some v else SMap.get k rest

/-- JS object spread `\x7b ...a, ...b \x7d`: keys of `b` win, keys only in
`a` are kept.  With first-match lookup this is exactly `b ++ a`. -/
def jsSpread {V : Type} (a b : SMap V) : SMap V := b ++ a

theorem SMap.get_append {V : Type} (k : String) (a b : SMap V) :
    SMap.get k (a ++ b) = (SMap.get k a).or (SMap.get k b) := by
  induction a with
  | nil => simp [SMap.get]
  | cons hd tl ih =>
    obtain ⟨k2, v⟩ := hd
    by_cases h : k = k2 <;> simp [SMap.get, h, ih]

theorem jsSpread_get {V : Type} (k : String) (a b : SMap V) :
    SMap.get k (jsSpread a b) = (SMap.get k b).or (SMap.get k a) := by
  simp [jsSpread, SMap.get_append]

/-- Keys preserved by spread: a key present in `a` and absent in `b` keeps
its value. -/
theorem jsSpread_get_of_not_mem {V : Type} (k : String) (a b : SMap V)
    (hb : SMap.get k b = none) : SMap.get k (jsSpread a b) = SMap.get k a := by
  simp [jsSpread_get, hb]

/-- New keys win on conflict: a key present in `b` takes `b`'s value. -/
theorem jsSpread_get_of_mem {V : Type} (k : String) (a b : SMap V) (v : V)
    (hb : SMap.get k b = some v) : SMap.get k (jsSpread a b) = some v := by
  simp [jsSpread_get, hb]

/-- A JS `Set` of strings: a list, `add` appends when the element is new
(mirrors `Set.prototype.add`, which is a no-op on present elements). -/
def SSet.add (s : List String) (x : String) : List String :=
  if x ∈ s then s else s ++ [x]

theorem SSet.mem_add (s : List String) (x y : String) (hy : y ∈ s) :
    y ∈ SSet.add s x := by
  unfold SSet.add
  split <;> simp [hy]

theorem SSet.self_mem_add (s : List String) (x : String) : x ∈ SSet.add s x := by
  unfold SSet.add
  split <;> simp_all

theorem SSet.nodup_add (s : List String) (x : String) (hs : s.Nodup) :
    (SSet.add s x).Nodup := by
  unfold SSet.add
  split
  · exact hs
  · simpa [List.nodup_append] using ⟨hs, by assumption⟩

theorem SSet.mem_add_iff (s : List String) (x y : String) :
    y ∈ SSet.add s x ↔ y ∈ s ∨ y = x := by
  unfold SSet.add
  split
  · rename_i hx
    constructor
    · exact Or.inl
    · rintro (h | rfl)
      · exact h
      · exact hx
  · simp

/-- `culture` slice of the runtime (only the locale is consumed by the
navigation machine). -/
structure Culture where
  locale : String
  deriving DecidableEq, Repr

/-- An entry of the `pages` map (`pagesState[id]`): the two fields the
provider reads.  `allowConditions` is truthy in JS whenever the property is
present (even as an empty array), hence `Option`. -/
structure PageDescriptor where
  allowConditions : Option (List String)
  declarer : Option String
  deriving DecidableEq, Repr

/-- A route descriptor (`state.route` / `runtime.route`).  Component and
message payloads elsewhere are abstracted as `String`. -/
structure PageRoute where
  id : String
  path : String
  params : SMap String
  canonicalPath : Option String
  domain : Option String
  deriving DecidableEq, Repr

/-- `state.navigationRoute` of a history location: `\x7bid, params, path\x7d`.
`id = ""` embeds a missing/falsy id (`maybePage || route.id` falls back). -/
structure NavigationRoute where
  id : String
  params : SMap String
  path : String
  deriving DecidableEq, Repr

/-- The `state` member of a history location.  `renderRouting` is the
framework marker; `fetchPage` is absent (`none`) or an explicit boolean. -/
structure HistoryState where
  navigationRoute : NavigationRoute
  fetchPage : Option Bool
  renderRouting : Bool
  deriving DecidableEq, Repr

/-- A history location as delivered to `onPageChanged`: the query string and
the (possibly absent) structured state. -/
structure RenderHistoryLocation where
  search : String
  state : Option HistoryState
  deriving DecidableEq, Repr

/-- The provider's React state (`RenderProviderState`), restricted to the
fields the verified transitions read or write. -/
structure ProviderState where
  appsEtag : String
  cacheHints : SMap (SMap String)
  components : SMap String
  culture : Culture
  defaultExtensions : SMap String
  device : String
  extensions : SMap String
  loadedPages : List String
  messages : SMap String
  page : String
  pages : SMap PageDescriptor
  preview : Bool
  production : Bool
  query : SMap String
  route : PageRoute
  settings : SMap String
  deriving DecidableEq, Repr

/-- Modelled from the spec: `queryStringToMap` of `src/render/utils/pages`
(not shipped under `src/`).  Per spec 4.2 it is the pure decoder from a
query-string to a string-keyed map, treating an empty string as the empty
map.  Embedded over the concrete `k=v&k=v` wire format. -/
def queryStringToMap (s : String) : SMap String :=
  if s = "" then []
  else
    ((s.dropWhile (· = '?')).splitOn "&").map fun kv =>
      match kv.splitOn "=" with
      | [] => ("", "")
      | k :: vs => (k, String.intercalate "=" vs)

/-- Modelled from the spec: `mapToQueryString` of `src/render/utils/pages`
(not shipped under `src/`).  Per spec 4.2 it is the pure encoder inverse to
`queryStringToMap`, over the same `k=v&k=v` wire format. -/
def mapToQueryString (m : SMap String) : String :=
  String.intercalate "&" (m.map fun kv => kv.1 ++ "=" ++ kv.2)

/-- `ramda`'s `mergeWith(merge, a, b)` as applied to the `cacheHints` maps:
keys in both are merged shallowly (right biased), keys in one survive. -/
def mergeWithMerge (a b : SMap (SMap String)) : SMap (SMap String) :=
  (a.map fun kv =>
    match SMap.get kv.1 b with
    | some vb => (kv.1, jsSpread kv.2 vb)
    | none => kv) ++
  b.filter fun kv => (SMap.get kv.1 a).isNone

/-- The page-data fetch the provider requests from the Data Fetcher: either
`fetchServerPage` (`RENDER_NAVIGATION` enabled) or the legacy
`fetchNavigationPage`.  Arguments are those built in `onPageChanged`. -/
inductive FetchRequest where
  | serverPage (path : String) (query : SMap String)
  | navigationPage (declarer : Option String) (locale : String)
      (params : SMap String) (production : Bool) (query : SMap String)
      (routeId : String) (skipCache : Bool)
  deriving DecidableEq, Repr

/-- The values `onPageChanged` captures in the closure passed to the fetch's
`.then` continuation: the parsed query, the resolved target page, the
transient route, and the `loadedPages` set as of the navigation event. -/
structure NavFetchCtx where
  query : SMap String
  page : String
  transientRoute : PageRoute
  loadedPages : List String
  deriving DecidableEq, Repr

/-- Post-navigation side effects (`afterPageChanged` and the fetch-success
callbacks): DOM route-class swap, scroll, and the cross-frame publish. -/
inductive NavEffect where
  | replaceRouteClass (route : String)
  | scrollTo
  | sendInfoFromIframe
  deriving DecidableEq, Repr

/-- Outcome of one `onPageChanged` transition: rejected foreign event
(`noop`), synchronous state merge with its side effects (`skip`), or a
provisional state plus a pending Data Fetcher request (`fetch`). -/
inductive NavOutcome where
  | noop
  | skip (next : ProviderState) (effects : List NavEffect)
  | fetch (next : ProviderState) (effects : List NavEffect)
      (ctx : NavFetchCtx) (req : FetchRequest)
  deriving DecidableEq, Repr

/-- The state the provider holds after the synchronous part of the
transition (`noop` keeps the pre-state). -/
def NavOutcome.nextState (st : ProviderState) : NavOutcome → ProviderState
  | .noop => st
  | .skip s _ => s
  | .fetch s _ _ _ => s

/-- The side effects run by the synchronous part of the transition. -/
def NavOutcome.effects : NavOutcome → List NavEffect
  | .noop => []
  | .skip _ es => es
  | .fetch _ es _ _ => es

/-- The Data Fetcher request issued by the transition, when any. -/
def NavOutcome.fetchRequest : NavOutcome → Option FetchRequest
  | .fetch _ _ _ req => some req
  | _ => none

/-- JS `maybePage || route.id`: fall back when the id is falsy (absent or
empty). -/
def jsOrElse (maybePage fallback : String) : String :=
  if maybePage = "" then fallback else maybePage

/-- `RenderProvider.onPageChanged(location)` — the navigation transition,
parametrised by the `RENDER_NAVIGATION` feature flag.  Faithful reading of
the source: it drops events without the `renderRouting` marker; computes
`shouldSkipFetchNavigationData = (!allowConditions && loadedPages.has(maybePage))
|| fetchPage === false` over the RAW `navigationRoute.id` (`maybePage`);
when skipping, merges `page`/`query`/`route` synchronously and runs
`afterPageChanged`; otherwise sets `preview = (route.domain !== 'admin')`,
scrolls, and issues the flag-selected fetch. -/
def onPageChanged (renderNavigation : Bool) (st : ProviderState)
    (location : RenderHistoryLocation) : NavOutcome :=
  match location.state with
  | none => .noop
  | some s =>
    if s.renderRouting = false then .noop
    else
      let navigationRoute := s.navigationRoute
      let maybePage := navigationRoute.id
      let transientRoute : PageRoute :=
        { st.route with
            id := navigationRoute.id
            params := navigationRoute.params
            path := navigationRoute.path }
      let allowConditions := (SMap.get maybePage st.pages).bind (·.allowConditions)
      let declarer := (SMap.get maybePage st.pages).bind (·.declarer)
      let shouldSkipFetchNavigationData :=
        (allowConditions = none ∧ maybePage ∈ st.loadedPages) ∨
          s.fetchPage = some false
      let query := queryStringToMap location.search
      let page := jsOrElse maybePage st.route.id
      if shouldSkipFetchNavigationData then
        .skip { st with page := page, query := query, route := transientRoute }
          [.replaceRouteClass page, .scrollTo, .sendInfoFromIframe]
      else
        let provisional := { st with preview := st.route.domain ≠ some "admin" }
        let ctx : NavFetchCtx :=
          { query := query, page := page, transientRoute := transientRoute,
            loadedPages := st.loadedPages }
        if renderNavigation then
          .fetch provisional [.scrollTo] ctx
            (.serverPage navigationRoute.path query)
        else
          .fetch provisional [.scrollTo] ctx
            (.navigationPage declarer st.culture.locale navigationRoute.params
              st.production query page false)

/-- `matchingPage` of a `fetchServerPage` response: the server-resolved
route together with its `routeId`, stored wholesale into `state.route`
(`toPageRoute`) while `routeId` becomes the new `page`. -/
structure ServerMatchingPage extends PageRoute where
  routeId : String
  deriving DecidableEq, Repr

/-- `ParsedServerPageResponse`, restricted to the fields the success
callback consumes (payload values abstracted as `String`). -/
structure ServerPageResponse where
  appsEtag : String
  components : SMap String
  extensions : SMap String
  matchingPage : ServerMatchingPage
  messages : SMap String
  pages : SMap PageDescriptor
  settings : SMap String
  deriving DecidableEq, Repr

/-- `ParsedPageQueryResponse` of the legacy `fetchNavigationPage` path.
`matchingPage` arrives with every route field populated, so the source's
`\x7b...transientRoute, ...matchingPage\x7d` evaluates to `matchingPage`. -/
structure PageQueryResponse where
  appsEtag : String
  cacheHints : SMap (SMap String)
  components : SMap String
  extensions : SMap String
  matchingPage : PageRoute
  messages : SMap String
  pages : SMap PageDescriptor
  settings : SMap String
  deriving DecidableEq, Repr

/-- The `.then` continuation of the `fetchServerPage` branch of
`onPageChanged`: spread-merges `components`/`extensions`/`messages`, adds
`matchingPage.routeId` to the captured `loadedPages`, clears `preview`,
installs the server-resolved route, then swaps the route class and
publishes. -/
def onServerPageSuccess (st : ProviderState) (ctx : NavFetchCtx)
    (r : ServerPageResponse) : ProviderState × List NavEffect :=
  ({ st with
      appsEtag := r.appsEtag
      components := jsSpread st.components r.components
      extensions := jsSpread st.extensions r.extensions
      loadedPages := SSet.add ctx.loadedPages r.matchingPage.routeId
      messages := jsSpread st.messages r.messages
      page := r.matchingPage.routeId
      pages := r.pages
      preview := false
      query := ctx.query
      route := r.matchingPage.toPageRoute
      settings := r.settings },
   [.replaceRouteClass r.matchingPage.routeId, .sendInfoFromIframe])

/-- The `.then` continuation of the legacy `fetchNavigationPage` branch of
`onPageChanged`: same spread merges, `mergeWith(merge, ...)` on
`cacheHints`, adds the captured target `page` to `loadedPages`, clears
`preview`, and installs `\x7b...transientRoute, ...matchingPage\x7d`. -/
def onNavigationPageSuccess (st : ProviderState) (ctx : NavFetchCtx)
    (r : PageQueryResponse) : ProviderState × List NavEffect :=
  ({ st with
      appsEtag := r.appsEtag
      cacheHints := mergeWithMerge st.cacheHints r.cacheHints
      components := jsSpread st.components r.components
      extensions := jsSpread st.extensions r.extensions
      loadedPages := SSet.add ctx.loadedPages ctx.page
      messages := jsSpread st.messages r.messages
      page := ctx.page
      pages := r.pages
      preview := false
      query := ctx.query
      route := r.matchingPage
      settings := r.settings },
   [.replaceRouteClass ctx.page, .sendInfoFromIframe])

/-- `RenderProvider.updateRuntime(options)`'s state merge, parametrised by
the `RENDER_NAVIGATION` flag and the fetch response (either path returns
the same destructured shape).  Faithful reading of the source: only
`extensions` is spread-merged; `components`, `messages`, `pages` and
`settings` are replaced wholesale; `cacheHints` is kept on the server-page
path and replaced on the legacy path; `page` and `route` keep the values
captured from the pre-fetch state. -/
def updateRuntime (renderNavigation : Bool) (st : ProviderState)
    (r : PageQueryResponse) : ProviderState :=
  { st with
      appsEtag := r.appsEtag
      cacheHints := if renderNavigation then st.cacheHints else r.cacheHints
      components := r.components
      extensions := jsSpread st.extensions r.extensions
      messages := r.messages
      pages := r.pages
      settings := r.settings }

/-- Options of `setQuery` with the source's defaults
(`merge = true`, `replace = false`). -/
structure SetQueryOptions where
  merge : Bool := true
  replace : Bool := false
  deriving DecidableEq, Repr

/-- The argument record `setQuery` hands to `pageNavigate`
(`utils/pages.navigate`).  `fetchPage` is the literal passed. -/
structure NavigateCall where
  fetchPage : Option Bool
  page : String
  params : SMap String
  query : String
  replace : Bool
  rootPath : String
  deriving DecidableEq, Repr

/-- `RenderProvider.setQuery(query, \x7bmerge, replace\x7d)`: with no
history it returns `false` (here `none`) and does nothing; otherwise it
decodes the current search string, re-encodes the merged (or replacing)
map, and delegates to `pageNavigate` with `fetchPage: false`.  The
current search string and the runtime `rootPath` are passed explicitly. -/
def setQuery (historySearch : Option String) (rootPath : String)
    (st : ProviderState) (query : SMap String) (opts : SetQueryOptions) :
    Option NavigateCall :=
  match historySearch with
  | none => none
  | some search =>
    let current := queryStringToMap search
    let nextQuery :=
      mapToQueryString (if opts.merge then jsSpread current query else query)
    some
      { fetchPage := some false
        page := st.page
        params := st.route.params
        query := nextQuery
        replace := opts.replace
        rootPath := rootPath }

/-- `RenderProvider.updateExtension(name, extension)`: spreads the single
binding `[name]: extension` over the extension map, and (after the state
settles) publishes to the hosting frame unless the name is the reserved
editor overlay.  The boolean is that publish decision. -/
def updateExtension (st : ProviderState) (name extension : String) :
    ProviderState × Bool :=
  ({ st with extensions := jsSpread st.extensions [(name, extension)] },
   name ≠ "store/__overlay")

/-- `RenderProvider.addMessages(newMessages)`: spread-merges the messages
and then always publishes. -/
def addMessages (st : ProviderState) (newMessages : SMap String) :
    ProviderState :=
  { st with messages := jsSpread st.messages newMessages }

/-- `RenderProvider.updateComponentAssets(availableComponents)`. -/
def updateComponentAssets (st : ProviderState) (availableComponents : SMap String) :
    ProviderState :=
  { st with components := jsSpread st.components availableComponents }

/-- `RenderProvider.handleSetDevice(device)`. -/
def handleSetDevice (st : ProviderState) (device : String) : ProviderState :=
  { st with device := device }

/-- The reserved query key that disables default-page prefetching
(`DISABLE_PREFETCH_PAGES`). -/
def DISABLE_PREFETCH_PAGES : String := "__disablePrefetchPages"

/-- The slice of provider-instance state `prefetchDefaultPages` touches:
the `rendered` flag set on mount and the `prefetchRoutes` set. -/
structure PrefetchRegState where
  rendered : Bool
  prefetchRoutes : List String
  deriving DecidableEq, Repr

/-- The `disablePrefetch` guard of `prefetchDefaultPages`: the reserved key
is present in the runtime query (`DISABLE_PREFETCH_PAGES in query`) with a
value other than the explicit string `"false"`. -/
def disablePrefetchFlag (query : Option (SMap String)) : Bool :=
  match query with
  | none => false
  | some q =>
    (SMap.get DISABLE_PREFETCH_PAGES q).isSome &&
      !(SMap.get DISABLE_PREFETCH_PAGES q == some "false")

/-- `RenderProvider.prefetchDefaultPages(routeIds)`: when the disabling key
is present in the runtime query with a value other than `"false"`, the call
does nothing; otherwise, after the first render it only warns (the boolean
returned); otherwise it adds every given route id to `prefetchRoutes`.
`query` is `runtime.query`, possibly absent. -/
def prefetchDefaultPages (query : Option (SMap String))
    (s : PrefetchRegState) (routeIds : List String) :
    PrefetchRegState × Bool :=
  if disablePrefetchFlag query then (s, false)
  else if s.rendered then (s, true)
  else ({ s with prefetchRoutes := routeIds.foldl SSet.add s.prefetchRoutes },
        false)

/-- `SEND_INFO_DEBOUNCE_MS` of the source. -/
def SEND_INFO_DEBOUNCE_MS : Nat := 100

/-- `RenderProvider.prefetchPages` (run on mount): when `prefetchRoutes` is
non-empty, schedules exactly one `execPrefetchPages` after `20 * 1000`
milliseconds; otherwise schedules nothing.  The result is the scheduled
delay. -/
def prefetchPages (prefetchRoutes : List String) : Option Nat :=
  if prefetchRoutes.length > 0 then some (20 * 1000) else none

/-- The calls `RenderProvider.execPrefetchPages` makes: one batched
`fetchDefaultPages` over all queued route ids, then one `prefetchAssets`
per component key of the returned `components` map.  `defaultComponents`
is the Data Fetcher's response. -/
structure PrefetchExecution where
  batchedRouteIds : List String
  assetFetches : List String
  deriving DecidableEq, Repr

/-- `RenderProvider.execPrefetchPages`, as a function of the queued route
ids and of the `components` map `fetchDefaultPages` resolves with. -/
def execPrefetchPages (prefetchRoutes : List String)
    (defaultComponents : SMap String) : PrefetchExecution :=
  { batchedRouteIds := prefetchRoutes
    assetFetches := defaultComponents.map (·.1) }

/-- What one `window.top.__provideRuntime` delivery carries: the full child
context (embedded as the provider state it projects), the current messages,
and the `shouldUpdateRuntime` flag. -/
structure IframePayload where
  context : ProviderState
  messages : SMap String
  shouldUpdateRuntime : Bool
  deriving DecidableEq, Repr

/-- The body of `sendInfoFromIframe` (the function the `debounce` wrapper
eventually invokes): a no-op (`none`) outside the site-editor iframe,
otherwise one delivery of the current context, the current messages, and
`(params && params.shouldUpdateRuntime) || false`. -/
def sendInfoBody (isSiteEditorIframe : Bool) (st : ProviderState)
    (params : Option Bool) : Option IframePayload :=
  if isSiteEditorIframe = false then none
  else some
    { context := st
      messages := st.messages
      shouldUpdateRuntime := params.getD false }

/-- Modelled from the spec: the third-party `debounce` wrapper around
`sendInfoFromIframe` (the `debounce` package is an external collaborator,
specified in 4.4 as a fixed-window trailing-call debouncer).  Calls are
`(timestamp, params)` pairs in nondecreasing time order; a call fires only
when no further call arrives within `window` milliseconds, and a burst
collapses into the last call. -/
def debounceFires (window : Nat) : List (Nat × Option Bool) → List (Option Bool)
  | [] => []
  | (t, a) :: rest =>
    match rest with
    | [] => [a]
    | (t2, _) :: _ =>
      if t2 - t < window then debounceFires window rest
      else a :: debounceFires window rest

/-- The deliveries a burst of `sendInfoFromIframe` calls produces: each
fired call runs `sendInfoBody` against the state current at fire time
(`st` here: one shared state for the burst). -/
def sendInfoDeliveries (isSiteEditorIframe : Bool) (st : ProviderState)
    (calls : List (Nat × Option Bool)) : List (Option IframePayload) :=
  (debounceFires SEND_INFO_DEBOUNCE_MS calls).map
    (sendInfoBody isSiteEditorIframe st)

/-- The runtime descriptor fields the constructor copies into the initial
state (`props.runtime`). -/
structure RuntimeDescriptor where
  appsEtag : String
  cacheHints : SMap (SMap String)
  components : SMap String
  culture : Culture
  extensions : SMap String
  messages : SMap String
  page : String
  pages : SMap PageDescriptor
  production : Bool
  query : SMap String
  route : PageRoute
  settings : Option (SMap String)
  deriving DecidableEq, Repr

/-- `RenderProvider`'s constructor state initialisation: notably
`loadedPages = new Set([page])`, `preview = false`, `device = 'any'`,
`defaultExtensions = \x7b\x7d`, and `settings = settings || \x7b\x7d`. -/
def initState (r : RuntimeDescriptor) : ProviderState :=
  { appsEtag := r.appsEtag
    cacheHints := r.cacheHints
    components := r.components
    culture := r.culture
    defaultExtensions := []
    device := "any"
    extensions := r.extensions
    loadedPages := [r.page]
    messages := r.messages
    page := r.page
    pages := r.pages
    preview := false
    production := r.production
    query := r.query
    route := r.route
    settings := r.settings.getD [] }

/-! ## Concrete sample values used by counterexamples and witnesses -/

/-- A sample current route. -/
def sampleRoute : PageRoute :=
  { id := "store.home", path := "/", params := [], canonicalPath := none,
    domain := none }

/-- A sample provider state: the boot page `store.home` is loaded and has
no allow-conditions. -/
def sampleState : ProviderState :=
  { appsEtag := "etag1"
    cacheHints := []
    components := [("comp.a", "1.x")]
    culture := { locale := "en-US" }
    defaultExtensions := []
    device := "any"
    extensions := [("store", "theme")]
    loadedPages := ["store.home"]
    messages := [("greeting", "hi")]
    page := "store.home"
    pages := [("store.home", { allowConditions := none, declarer := none })]
    preview := false
    production := true
    query := []
    route := sampleRoute
    settings := [] }

/-- A framework navigation whose `navigationRoute.id` is falsy: the claim
resolves the target to the current route id, the source does not. -/
def sampleFalsyIdState : HistoryState :=
  { navigationRoute := { id := "", params := [], path := "/x" },
    fetchPage := none, renderRouting := true }

/-- The location carrying `sampleFalsyIdState`. -/
def sampleFalsyIdLocation : RenderHistoryLocation :=
  { search := "", state := some sampleFalsyIdState }

/-- A framework navigation straight back to the loaded boot page. -/
def sampleHomeState : HistoryState :=
  { navigationRoute := { id := "store.home", params := [], path := "/" },
    fetchPage := none, renderRouting := true }

/-- The location carrying `sampleHomeState`. -/
def sampleHomeLocation : RenderHistoryLocation :=
  { search := "", state := some sampleHomeState }

/-! ## Shared transition lemmas -/

/-- `onPageChanged` skips the Data Fetcher exactly when the source's
`shouldSkipFetchNavigationData` condition holds (for marker events). -/
theorem skipFetch_iff (rn : Bool) (st : ProviderState)
    (loc : RenderHistoryLocation) (s : HistoryState) (hs : loc.state = some s)
    (hm : s.renderRouting = true) :
    (onPageChanged rn st loc).fetchRequest = none ↔
      (((SMap.get s.navigationRoute.id st.pages).bind (·.allowConditions)
          = none ∧ s.navigationRoute.id ∈ st.loadedPages) ∨
        s.fetchPage = some false) := by
  simp only [onPageChanged, hs, hm]
  rw [if_neg (by simp)]
  split
  · rename_i hcond
    exact iff_of_true rfl hcond
  · rename_i hcond
    split <;>
      exact iff_of_false (by simp [NavOutcome.fetchRequest]) hcond

/-- Events without the framework marker are dropped. -/
theorem onPageChanged_foreign_noop (rn : Bool) (st : ProviderState)
    (loc : RenderHistoryLocation)
    (h : loc.state = none ∨
      ∃ s, loc.state = some s ∧ s.renderRouting = false) :
    onPageChanged rn st loc = .noop := by
  rcases h with h | ⟨s, hs, hr⟩
  · simp [onPageChanged, h]
  · simp [onPageChanged, hs, hr]

/-! ## C1 -/

/-- The skip condition exactly as the claim words it (refinement
comparison): the target page id is resolved as `navigationRoute.id` WITH
the fallback to the current route's id, before checking allow-conditions
and `loadedPages` membership. -/
def claimShouldSkipFetch (st : ProviderState) (s : HistoryState) : Prop :=
  ((SMap.get (jsOrElse s.navigationRoute.id st.route.id) st.pages).bind
      (·.allowConditions) = none ∧
    jsOrElse s.navigationRoute.id st.route.id ∈ st.loadedPages) ∨
  s.fetchPage = some false

/-- C1 counterexample: a marker-carrying event whose `navigationRoute.id`
is falsy while the current route's page is loaded with no allow-conditions.
The claim's fallback-resolved condition holds (so the claim demands a
skip), yet the source invokes the Data Fetcher: the code tests the raw
`navigationRoute.id` (`maybePage`), not the fallback-resolved target. -/
theorem C1_counterexample :
    claimShouldSkipFetch sampleState sampleFalsyIdState ∧
      (onPageChanged false sampleState sampleFalsyIdLocation).fetchRequest.isSome
        = true := by
  constructor
  · left
    constructor <;> decide
  · decide

/-- C1 (amended): for every navigation event carrying the framework
marker, `onPageChanged` skips invoking the Data Fetcher if and only if
(the raw `event.navigationRoute.id` has no allow-conditions in the pages
map AND is a member of `loadedPages`) OR the event's `fetchPage` field
equals `false`; in particular, a navigation whose `navigationRoute.id` is
a page id already in `loadedPages` with no allow-conditions never invokes
the Data Fetcher. -/
theorem C1_skip_iff (rn : Bool) (st : ProviderState)
    (loc : RenderHistoryLocation) (s : HistoryState) (hs : loc.state = some s)
    (hm : s.renderRouting = true) :
    ((onPageChanged rn st loc).fetchRequest = none ↔
      (((SMap.get s.navigationRoute.id st.pages).bind (·.allowConditions)
          = none ∧ s.navigationRoute.id ∈ st.loadedPages) ∨
        s.fetchPage = some false)) ∧
    (((SMap.get s.navigationRoute.id st.pages).bind (·.allowConditions)
        = none ∧ s.navigationRoute.id ∈ st.loadedPages) →
      (onPageChanged rn st loc).fetchRequest = none) :=
  ⟨skipFetch_iff rn st loc s hs hm,
   fun h => (skipFetch_iff rn st loc s hs hm).mpr (Or.inl h)⟩

/-- C1 witness: navigating back to the loaded, condition-free boot page
skips the fetch. -/
theorem C1_skip_iff_witness :
    (onPageChanged false sampleState sampleHomeLocation).fetchRequest = none :=
  (C1_skip_iff false sampleState sampleHomeLocation sampleHomeState rfl
    rfl).2 (by constructor <;> decide)

/-! ## C2 -/

/-- A sample legacy fetch response whose maps are all empty. -/
def sampleEmptyResponse : PageQueryResponse :=
  { appsEtag := "etag2"
    cacheHints := []
    components := []
    extensions := []
    matchingPage := sampleRoute
    messages := []
    pages := []
    settings := [] }

/-- A sample capture context for the fetch continuations. -/
def sampleCtx : NavFetchCtx :=
  { query := [], page := "store.product", transientRoute := sampleRoute,
    loadedPages := ["store.home"] }

/-- C2 counterexample: `updateRuntime` does NOT merge `messages`
additively.  In `sampleState` the key `greeting` is present, the fetch
response carries no `greeting`, yet after `updateRuntime` the key is gone:
the source assigns `messages` (and `components`) wholesale from the
response instead of spreading the previous map into it. -/
theorem C2_counterexample :
    SMap.get "greeting" sampleState.messages = some "hi" ∧
      SMap.get "greeting" sampleEmptyResponse.messages = none ∧
      SMap.get "greeting" (updateRuntime false sampleState
        sampleEmptyResponse).messages = none := by
  refine ⟨by decide, by decide, by decide⟩

/-- C2 (amended): the fetch-success transitions of `onPageChanged` (both
the server-page and the legacy variant) merge `extensions`, `components`
and `messages` additively — every key present before and absent from the
fetch result keeps its value, and keys present in the result win —
whereas `updateRuntime` merges only `extensions` additively and replaces
`components` and `messages` wholesale with the response's maps. -/
theorem C2_merge_behaviour :
    (∀ st ctx r k,
      (SMap.get k r.components = none →
        SMap.get k (onServerPageSuccess st ctx r).1.components
          = SMap.get k st.components) ∧
      (SMap.get k r.extensions = none →
        SMap.get k (onServerPageSuccess st ctx r).1.extensions
          = SMap.get k st.extensions) ∧
      (SMap.get k r.messages = none →
        SMap.get k (onServerPageSuccess st ctx r).1.messages
          = SMap.get k st.messages) ∧
      (∀ v, SMap.get k r.components = some v →
        SMap.get k (onServerPageSuccess st ctx r).1.components = some v) ∧
      (∀ v, SMap.get k r.extensions = some v →
        SMap.get k (onServerPageSuccess st ctx r).1.extensions = some v) ∧
      (∀ v, SMap.get k r.messages = some v →
        SMap.get k (onServerPageSuccess st ctx r).1.messages = some v)) ∧
    (∀ st ctx r k,
      (SMap.get k r.components = none →
        SMap.get k (onNavigationPageSuccess st ctx r).1.components
          = SMap.get k st.components) ∧
      (SMap.get k r.extensions = none →
        SMap.get k (onNavigationPageSuccess st ctx r).1.extensions
          = SMap.get k st.extensions) ∧
      (SMap.get k r.messages = none →
        SMap.get k (onNavigationPageSuccess st ctx r).1.messages
          = SMap.get k st.messages) ∧
      (∀ v, SMap.get k r.components = some v →
        SMap.get k (onNavigationPageSuccess st ctx r).1.components = some v) ∧
      (∀ v, SMap.get k r.extensions = some v →
        SMap.get k (onNavigationPageSuccess st ctx r).1.extensions = some v) ∧
      (∀ v, SMap.get k r.messages = some v →
        SMap.get k (onNavigationPageSuccess st ctx r).1.messages = some v)) ∧
    (∀ rn st r k,
      (SMap.get k r.extensions = none →
        SMap.get k (updateRuntime rn st r).extensions
          = SMap.get k st.extensions) ∧
      (∀ v, SMap.get k r.extensions = some v →
        SMap.get k (updateRuntime rn st r).extensions = some v)) ∧
    (∀ rn st r,
      (updateRuntime rn st r).components = r.components ∧
      (updateRuntime rn st r).messages = r.messages) := by
  refine ⟨fun st ctx r k => ?_, fun st ctx r k => ?_, fun rn st r k => ?_,
    fun rn st r => ⟨rfl, rfl⟩⟩
  · exact ⟨fun h => jsSpread_get_of_not_mem k _ _ h,
      fun h => jsSpread_get_of_not_mem k _ _ h,
      fun h => jsSpread_get_of_not_mem k _ _ h,
      fun v h => jsSpread_get_of_mem k _ _ v h,
      fun v h => jsSpread_get_of_mem k _ _ v h,
      fun v h => jsSpread_get_of_mem k _ _ v h⟩
  · exact ⟨fun h => jsSpread_get_of_not_mem k _ _ h,
      fun h => jsSpread_get_of_not_mem k _ _ h,
      fun h => jsSpread_get_of_not_mem k _ _ h,
      fun v h => jsSpread_get_of_mem k _ _ v h,
      fun v h => jsSpread_get_of_mem k _ _ v h,
      fun v h => jsSpread_get_of_mem k _ _ v h⟩
  · exact ⟨fun h => jsSpread_get_of_not_mem k _ _ h,
      fun v h => jsSpread_get_of_mem k _ _ v h⟩

/-- C2 witness: concrete key preservation — the pre-existing component
entry `comp.a` survives a legacy fetch success whose response lacks it. -/
theorem C2_merge_behaviour_witness :
    SMap.get "comp.a" (onNavigationPageSuccess sampleState sampleCtx
      sampleEmptyResponse).1.components = SMap.get "comp.a"
        sampleState.components :=
  (C2_merge_behaviour.2.1 sampleState sampleCtx sampleEmptyResponse
    "comp.a").1 (by decide)

/-! ## C3 -/

/-- C3: every location-change event whose `state` is absent, or whose
`state` lacks `renderRouting = true`, is rejected by `onPageChanged`:
the outcome is `noop`, so the navigation state is unchanged in every
field, no side effect runs, and no Data Fetcher request is issued. -/
theorem C3_foreign_event_noop (rn : Bool) (st : ProviderState)
    (loc : RenderHistoryLocation)
    (h : loc.state = none ∨
      ∃ s, loc.state = some s ∧ s.renderRouting = false) :
    onPageChanged rn st loc = .noop ∧
      (onPageChanged rn st loc).nextState st = st ∧
      (onPageChanged rn st loc).effects = [] ∧
      (onPageChanged rn st loc).fetchRequest = none := by
  have hnoop : onPageChanged rn st loc = .noop :=
    onPageChanged_foreign_noop rn st loc h
  exact ⟨hnoop, by rw [hnoop]; rfl, by rw [hnoop]; rfl, by rw [hnoop]; rfl⟩

/-- A history location whose state carries no framework marker. -/
def sampleForeignLocation : RenderHistoryLocation :=
  { search := "a=b",
    state := some { navigationRoute := { id := "x", params := [], path := "/x" },
                    fetchPage := none, renderRouting := false } }

/-- C3 witness: a concrete unmarked event leaves `sampleState` untouched. -/
theorem C3_foreign_event_noop_witness :
    onPageChanged true sampleState sampleForeignLocation = .noop ∧
      (onPageChanged true sampleState sampleForeignLocation).nextState
        sampleState = sampleState ∧
      (onPageChanged true sampleState sampleForeignLocation).effects = [] ∧
      (onPageChanged true sampleState
        sampleForeignLocation).fetchRequest = none :=
  C3_foreign_event_noop true sampleState sampleForeignLocation
    (Or.inr ⟨_, rfl, rfl⟩)

/-! ## C4 -/

/-- C4: `setQuery` never invokes the Data Fetcher, for every query map and
every combination of the `merge` and `replace` flags.  With no history it
returns `false` (`none`) and changes nothing; otherwise it re-encodes the
query — spreading it over the decoded current query when `merge` is true,
replacing it otherwise — and delegates to a client-side navigation whose
`fetchPage` is literally `false`; and any marker-carrying navigation event
whose `fetchPage` is `false` makes `onPageChanged` skip the fetch. -/
theorem C4_setQuery_never_fetches :
    (∀ rootPath st query opts,
      setQuery none rootPath st query opts = none) ∧
    (∀ search rootPath st query opts,
      setQuery (some search) rootPath st query opts = some
        { fetchPage := some false
          page := st.page
          params := st.route.params
          query := mapToQueryString
            (if opts.merge then jsSpread (queryStringToMap search) query
             else query)
          replace := opts.replace
          rootPath := rootPath }) ∧
    (∀ rn st loc s, loc.state = some s → s.fetchPage = some false →
      (onPageChanged rn st loc).fetchRequest = none) := by
  refine ⟨fun _ _ _ _ => rfl, fun _ _ _ _ _ => rfl, fun rn st loc s hs hf => ?_⟩
  by_cases hm : s.renderRouting = true
  · exact (skipFetch_iff rn st loc s hs hm).mpr (Or.inr hf)
  · rw [onPageChanged_foreign_noop rn st loc
      (Or.inr ⟨s, hs, by simpa using hm⟩)]
    rfl

/-- The navigation event a `setQuery` call induces: `fetchPage = false`. -/
def sampleSetQueryLocation : RenderHistoryLocation :=
  { search := "color=blue&q=red"
    state := some
      { navigationRoute := { id := "store.home", params := [], path := "/" }
        fetchPage := some false
        renderRouting := true } }

/-- C4 witness: a concrete `setQuery` call with history present, and the
navigation event it induces (`fetchPage = false`) skipping the fetch. -/
theorem C4_setQuery_never_fetches_witness :
    setQuery (some "color=blue") "" sampleState [("q", "red")] {} = some
      { fetchPage := some false
        page := sampleState.page
        params := sampleState.route.params
        query := mapToQueryString
          (if ({} : SetQueryOptions).merge then
            jsSpread (queryStringToMap "color=blue") [("q", "red")]
           else [("q", "red")])
        replace := ({} : SetQueryOptions).replace
        rootPath := "" } ∧
    (onPageChanged false sampleState sampleSetQueryLocation).fetchRequest
      = none :=
  ⟨C4_setQuery_never_fetches.2.1 "color=blue" "" sampleState [("q", "red")] {},
   C4_setQuery_never_fetches.2.2 false sampleState sampleSetQueryLocation
     _ rfl rfl⟩

/-! ## C5 -/

/-- C5: `loadedPages` only grows.  Every transition of the state machine —
`onPageChanged`'s synchronous part (skip and fetch branches alike), both
fetch-success continuations, `updateRuntime`, `updateExtension`,
`addMessages`, `updateComponentAssets` and `handleSetDevice` — preserves
every page id already in `loadedPages`; nothing is ever removed. -/
theorem C5_loadedPages_monotone (p : String) :
    (∀ rn st loc, p ∈ st.loadedPages →
      p ∈ ((onPageChanged rn st loc).nextState st).loadedPages) ∧
    (∀ st ctx r, p ∈ ctx.loadedPages →
      p ∈ (onServerPageSuccess st ctx r).1.loadedPages) ∧
    (∀ st ctx r, p ∈ ctx.loadedPages →
      p ∈ (onNavigationPageSuccess st ctx r).1.loadedPages) ∧
    (∀ rn st r, p ∈ st.loadedPages →
      p ∈ (updateRuntime rn st r).loadedPages) ∧
    (∀ st name ext, p ∈ st.loadedPages →
      p ∈ (updateExtension st name ext).1.loadedPages) ∧
    (∀ st m, p ∈ st.loadedPages → p ∈ (addMessages st m).loadedPages) ∧
    (∀ st c, p ∈ st.loadedPages →
      p ∈ (updateComponentAssets st c).loadedPages) ∧
    (∀ st d, p ∈ st.loadedPages →
      p ∈ (handleSetDevice st d).loadedPages) := by
  refine ⟨fun rn st loc hp => ?_,
    fun st ctx r hp => SSet.mem_add _ _ _ hp,
    fun st ctx r hp => SSet.mem_add _ _ _ hp,
    fun rn st r hp => hp, fun st name ext hp => hp, fun st m hp => hp,
    fun st c hp => hp, fun st d hp => hp⟩
  unfold onPageChanged
  split
  · exact hp
  · split
    · exact hp
    · dsimp only
      split
      · exact hp
      · split <;> exact hp

/-- C5 witness: concrete instantiations for the skip branch and the legacy
fetch-success continuation. -/
theorem C5_loadedPages_monotone_witness :
    "store.home" ∈ ((onPageChanged false sampleState
      sampleHomeLocation).nextState sampleState).loadedPages ∧
    "store.home" ∈ (onNavigationPageSuccess sampleState sampleCtx
      sampleEmptyResponse).1.loadedPages :=
  ⟨(C5_loadedPages_monotone "store.home").1 false sampleState
     sampleHomeLocation (by decide),
   (C5_loadedPages_monotone "store.home").2.2.1 sampleState sampleCtx
     sampleEmptyResponse (by decide)⟩

/-! ## C6 -/

/-- C6: on every non-skipped marker navigation the provisional state sets
`preview` to `(current route.domain !== 'admin')` and leaves every other
field untouched; each fetch-success continuation clears `preview` and
leaves the settled page in `loadedPages` (the legacy path records the
captured target page, the server path the server-resolved `routeId`). -/
theorem C6_preview_lifecycle :
    (∀ rn st loc next effects ctx req,
      onPageChanged rn st loc = .fetch next effects ctx req →
      next = { st with preview := st.route.domain ≠ some "admin" }) ∧
    (∀ st ctx r,
      (onServerPageSuccess st ctx r).1.preview = false ∧
      (onServerPageSuccess st ctx r).1.page
        ∈ (onServerPageSuccess st ctx r).1.loadedPages) ∧
    (∀ st ctx r,
      (onNavigationPageSuccess st ctx r).1.preview = false ∧
      ctx.page ∈ (onNavigationPageSuccess st ctx r).1.loadedPages ∧
      (onNavigationPageSuccess st ctx r).1.page
        ∈ (onNavigationPageSuccess st ctx r).1.loadedPages) := by
  refine ⟨fun rn st loc next effects ctx req h => ?_,
    fun st ctx r => ⟨rfl, SSet.self_mem_add _ _⟩,
    fun st ctx r =>
      ⟨rfl, SSet.self_mem_add _ _, SSet.self_mem_add _ _⟩⟩
  revert h
  unfold onPageChanged
  split
  · intro h
    exact absurd h (by simp)
  · split
    · intro h
      exact absurd h (by simp)
    · dsimp only
      split
      · intro h
        exact absurd h (by simp)
      · split <;>
        · intro h
          injection h with h1
          exact h1.symm

/-- C6 witness: navigating to an unseen page from `sampleState` sets
`preview` (the sample route has no `admin` domain), and the legacy
success continuation settles with `preview = false` and the target
loaded. -/
theorem C6_preview_lifecycle_witness :
    (∀ next effects ctx req,
      onPageChanged false sampleState sampleFalsyIdLocation
          = .fetch next effects ctx req →
      next = { sampleState with
        preview := sampleState.route.domain ≠ some "admin" }) ∧
    (onNavigationPageSuccess sampleState sampleCtx
      sampleEmptyResponse).1.preview = false ∧
    "store.product" ∈ (onNavigationPageSuccess sampleState sampleCtx
      sampleEmptyResponse).1.loadedPages :=
  ⟨fun next effects ctx req h =>
    C6_preview_lifecycle.1 false sampleState sampleFalsyIdLocation
      next effects ctx req h,
   (C6_preview_lifecycle.2.2 sampleState sampleCtx sampleEmptyResponse).1,
   (C6_preview_lifecycle.2.2 sampleState sampleCtx sampleEmptyResponse).2.1⟩

/-! ## C7 -/

theorem SSet.mem_foldl_add_left (l : List String) (s : List String)
    (x : String) (hx : x ∈ s) : x ∈ l.foldl SSet.add s := by
  induction l generalizing s with
  | nil => exact hx
  | cons hd tl ih => exact ih _ (SSet.mem_add _ _ _ hx)

theorem SSet.mem_foldl_add_right (l : List String) (s : List String)
    (x : String) (hx : x ∈ l) : x ∈ l.foldl SSet.add s := by
  induction l generalizing s with
  | nil => cases hx
  | cons hd tl ih =>
    rcases List.mem_cons.mp hx with rfl | hx
    · exact SSet.mem_foldl_add_left tl (SSet.add s x) x (SSet.self_mem_add s x)
    · exact ih _ hx

theorem SSet.mem_foldl_add_elim (l : List String) (s : List String)
    (x : String) (hx : x ∈ l.foldl SSet.add s) : x ∈ s ∨ x ∈ l := by
  induction l generalizing s with
  | nil => exact Or.inl hx
  | cons hd tl ih =>
    rcases ih _ hx with h | h
    · rcases (SSet.mem_add_iff _ _ _).mp h with h | rfl
      · exact Or.inl h
      · simp
    · exact Or.inr (List.mem_cons_of_mem _ h)

theorem SSet.nodup_foldl_add (l : List String) (s : List String)
    (hs : s.Nodup) : (l.foldl SSet.add s).Nodup := by
  induction l generalizing s with
  | nil => exact hs
  | cons hd tl ih => exact ih _ (SSet.nodup_add _ _ hs)

/-- C7: prefetch registration and scheduling.  A call with the disabling
query flag present (value other than `"false"`) is a no-op without a
warning; a call after the first render warns and leaves the set unchanged;
otherwise every given route id is added, previous ids are kept, the set
stays duplicate-free, and nothing else enters it.  On mount, exactly one
execution is scheduled — after a `20 * 1000` ms delay — iff the set is
non-empty; that execution performs one batched default-page fetch over all
queued route ids followed by one asset fetch per component key of the
result. -/
theorem C7_prefetch_registration :
    (∀ query s routeIds, disablePrefetchFlag query = true →
      prefetchDefaultPages query s routeIds = (s, false)) ∧
    (∀ query s routeIds, disablePrefetchFlag query = false →
      s.rendered = true →
      prefetchDefaultPages query s routeIds = (s, true)) ∧
    (∀ query s routeIds, disablePrefetchFlag query = false →
      s.rendered = false →
      (prefetchDefaultPages query s routeIds).2 = false ∧
      (∀ x ∈ routeIds,
        x ∈ (prefetchDefaultPages query s routeIds).1.prefetchRoutes) ∧
      (∀ x ∈ s.prefetchRoutes,
        x ∈ (prefetchDefaultPages query s routeIds).1.prefetchRoutes) ∧
      (∀ x ∈ (prefetchDefaultPages query s routeIds).1.prefetchRoutes,
        x ∈ s.prefetchRoutes ∨ x ∈ routeIds) ∧
      (s.prefetchRoutes.Nodup →
        (prefetchDefaultPages query s routeIds).1.prefetchRoutes.Nodup)) ∧
    (∀ routes : List String,
      (prefetchPages routes = some (20 * 1000) ↔ routes ≠ []) ∧
      (routes = [] → prefetchPages routes = none)) ∧
    (∀ routes comps,
      (execPrefetchPages routes comps).batchedRouteIds = routes ∧
      (execPrefetchPages routes comps).assetFetches = comps.map Prod.fst) := by
  refine ⟨fun query s routeIds hd => ?_, fun query s routeIds hd hr => ?_,
    fun query s routeIds hd hr => ?_, fun routes => ?_,
    fun routes comps => ⟨rfl, rfl⟩⟩
  · simp [prefetchDefaultPages, hd]
  · simp [prefetchDefaultPages, hd, hr]
  · refine ⟨by simp [prefetchDefaultPages, hd, hr],
      fun x hx => ?_, fun x hx => ?_, fun x hx => ?_, fun hnd => ?_⟩
    · simpa [prefetchDefaultPages, hd, hr] using
        SSet.mem_foldl_add_right routeIds s.prefetchRoutes x hx
    · simpa [prefetchDefaultPages, hd, hr] using
        SSet.mem_foldl_add_left routeIds s.prefetchRoutes x hx
    · exact SSet.mem_foldl_add_elim routeIds s.prefetchRoutes x
        (by simpa [prefetchDefaultPages, hd, hr] using hx)
    · simpa [prefetchDefaultPages, hd, hr] using
        SSet.nodup_foldl_add routeIds s.prefetchRoutes hnd
  · constructor
    · unfold prefetchPages
      split <;> rename_i hlen
      · simp only [List.length_pos] at hlen
        exact iff_of_true rfl hlen
      · refine iff_of_false (by simp) ?_
        simp only [not_lt, Nat.le_zero, List.length_eq_zero] at hlen
        simp [hlen]
    · intro h
      simp [prefetchPages, h]

/-- C7 witness: a run without the disabling flag, before render, then the
mount-time scheduling and one batched execution. -/
theorem C7_prefetch_registration_witness :
    prefetchDefaultPages (some []) { rendered := true, prefetchRoutes := [] }
      ["store.search"] = ({ rendered := true, prefetchRoutes := [] }, true) ∧
    ("store.search" ∈ (prefetchDefaultPages none
      { rendered := false, prefetchRoutes := [] }
      ["store.search"]).1.prefetchRoutes) ∧
    (prefetchPages ["store.search"] = some (20 * 1000) ↔
      ["store.search"] ≠ []) ∧
    (execPrefetchPages ["store.search"]
      [("comp.a", "1.x")]).assetFetches = ["comp.a"] :=
  ⟨C7_prefetch_registration.2.1 (some [])
     { rendered := true, prefetchRoutes := [] } ["store.search"] rfl rfl,
   ((C7_prefetch_registration.2.2.1 none
     { rendered := false, prefetchRoutes := [] } ["store.search"] rfl
     rfl).2.1) "store.search" (by decide),
   C7_prefetch_registration.2.2.2.1 ["store.search"] |>.1.trans
     (by simp),
   (C7_prefetch_registration.2.2.2.2 ["store.search"]
     [("comp.a", "1.x")]).2⟩

/-! ## C8 -/

/-- C8: `updateExtension(name, extension)` overwrites exactly the entry
`name` in the extension map — every other key keeps its previous value —
touches no other state field, and publishes to the hosting frame (after
the mutation settles) if and only if `name` is not the reserved
editor-overlay entry `store/__overlay`. -/
theorem C8_updateExtension (st : ProviderState) (name extension : String) :
    SMap.get name (updateExtension st name extension).1.extensions
      = some extension ∧
    (∀ k, k ≠ name →
      SMap.get k (updateExtension st name extension).1.extensions
        = SMap.get k st.extensions) ∧
    (updateExtension st name extension).1
      = { st with extensions := (updateExtension st name extension).1.extensions } ∧
    ((updateExtension st name extension).2 = true ↔
      name ≠ "store/__overlay") := by
  refine ⟨?_, fun k hk => ?_, rfl, by simp [updateExtension]⟩
  · exact jsSpread_get_of_mem name _ _ extension (by simp [SMap.get])
  · exact jsSpread_get_of_not_mem k _ _ (by simp [SMap.get, hk])

/-- C8 witness: overwriting `store` in `sampleState` keeps the other keys
and publishes. -/
theorem C8_updateExtension_witness :
    SMap.get "store" (updateExtension sampleState "store"
      "theme2").1.extensions = some "theme2" ∧
    SMap.get "store/home" (updateExtension sampleState "store"
      "theme2").1.extensions = SMap.get "store/home" sampleState.extensions ∧
    ((updateExtension sampleState "store" "theme2").2 = true ↔
      "store" ≠ "store/__overlay") :=
  ⟨(C8_updateExtension sampleState "store" "theme2").1,
   (C8_updateExtension sampleState "store" "theme2").2.1 "store/home"
     (by decide),
   (C8_updateExtension sampleState "store" "theme2").2.2.2⟩

/-! ## C9 -/

/-- C9: the cross-frame publish.  Outside the recognised hosting iframe
the wrapped function is a no-op; inside, one delivery carries the full
context, the current messages, and the `shouldUpdateRuntime` flag of the
call (absent params count as `false`).  The wrapper is debounced over the
fixed `SEND_INFO_DEBOUNCE_MS = 100` window with trailing-call semantics:
any non-empty burst whose consecutive calls are closer together than the
window collapses into exactly one delivery, the one of the last call. -/
theorem C9_debounced_publish :
    (∀ st params, sendInfoBody false st params = none) ∧
    (∀ st params, sendInfoBody true st params = some
      { context := st, messages := st.messages,
        shouldUpdateRuntime := params.getD false }) ∧
    SEND_INFO_DEBOUNCE_MS = 100 ∧
    (∀ calls : List (Nat × Option Bool),
      calls.Chain' (fun a b => b.1 - a.1 < SEND_INFO_DEBOUNCE_MS) →
      debounceFires SEND_INFO_DEBOUNCE_MS calls
        = (calls.getLast?.map Prod.snd).toList) ∧
    (∀ inside st (calls : List (Nat × Option Bool)),
      calls.Chain' (fun a b => b.1 - a.1 < SEND_INFO_DEBOUNCE_MS) →
      sendInfoDeliveries inside st calls
        = ((calls.getLast?.map Prod.snd).toList).map
            (sendInfoBody inside st)) := by
  have hfires : ∀ calls : List (Nat × Option Bool),
      calls.Chain' (fun a b => b.1 - a.1 < SEND_INFO_DEBOUNCE_MS) →
      debounceFires SEND_INFO_DEBOUNCE_MS calls
        = (calls.getLast?.map Prod.snd).toList := by
    intro calls hchain
    induction calls with
    | nil => rfl
    | cons hd tl ih =>
      obtain ⟨t, a⟩ := hd
      match tl, hchain with
      | [], _ => rfl
      | (t2, b) :: rest, hchain =>
        have hgap : t2 - t < SEND_INFO_DEBOUNCE_MS :=
          (List.chain'_cons.mp hchain).1
        have htl := ih (List.chain'_cons.mp hchain).2
        have hstep : debounceFires SEND_INFO_DEBOUNCE_MS
            ((t, a) :: (t2, b) :: rest) =
            if t2 - t < SEND_INFO_DEBOUNCE_MS then
              debounceFires SEND_INFO_DEBOUNCE_MS ((t2, b) :: rest)
            else a :: debounceFires SEND_INFO_DEBOUNCE_MS ((t2, b) :: rest) :=
          rfl
        rw [hstep, if_pos hgap, htl, List.getLast?_cons_cons]
  refine ⟨fun st params => rfl, fun st params => rfl, rfl, hfires,
    fun inside st calls hchain => ?_⟩
  simp [sendInfoDeliveries, hfires calls hchain]

/-- The payload the last call of the witness burst delivers. -/
def sampleBurstPayload : IframePayload :=
  { context := sampleState
    messages := sampleState.messages
    shouldUpdateRuntime := true }

/-- C9 witness: a three-call burst 40 ms apart inside the iframe delivers
exactly once, with the last call's flag. -/
theorem C9_debounced_publish_witness :
    sendInfoDeliveries true sampleState
        [(0, none), (40, some false), (80, some true)]
      = [some sampleBurstPayload] := by
  have h := C9_debounced_publish.2.2.2.2 true sampleState
    [(0, none), (40, some false), (80, some true)]
    (by norm_num [List.chain'_cons, SEND_INFO_DEBOUNCE_MS])
  rw [h]
  rfl

/-! ## C10 -/

/-- The runtime descriptor that `sampleState` boots from. -/
def sampleDescriptor : RuntimeDescriptor :=
  { appsEtag := "etag1"
    cacheHints := []
    components := [("comp.a", "1.x")]
    culture := { locale := "en-US" }
    extensions := [("store", "theme")]
    messages := [("greeting", "hi")]
    page := "store.home"
    pages := [("store.home", { allowConditions := none, declarer := none })]
    production := true
    query := []
    route := sampleRoute
    settings := none }

/-- C10: the constructor initialises `loadedPages` to the singleton set of
the runtime descriptor's boot page id; consequently the first client-side
navigation whose `navigationRoute.id` is the boot page — when that page
has no allow-conditions and the event's `fetchPage` is not `false` — is
skipped, never reaching the Data Fetcher, even though no navigation fetch
has completed. -/
theorem C10_boot_page_loaded (r : RuntimeDescriptor) (rn : Bool)
    (loc : RenderHistoryLocation) (s : HistoryState)
    (hs : loc.state = some s) (hm : s.renderRouting = true)
    (hid : s.navigationRoute.id = r.page)
    (hac : (SMap.get r.page r.pages).bind (·.allowConditions) = none)
    (hfp : s.fetchPage ≠ some false) :
    (initState r).loadedPages = [r.page] ∧
    (onPageChanged rn (initState r) loc).fetchRequest = none ∧
    (∃ next effects, onPageChanged rn (initState r) loc
      = .skip next effects) := by
  have hcond : ((SMap.get s.navigationRoute.id (initState r).pages).bind
      (·.allowConditions) = none ∧
        s.navigationRoute.id ∈ (initState r).loadedPages) ∨
      s.fetchPage = some false :=
    Or.inl ⟨by simpa [initState, hid] using hac, by simp [initState, hid]⟩
  refine ⟨rfl, (skipFetch_iff rn (initState r) loc s hs hm).mpr hcond, ?_⟩
  simp only [onPageChanged, hs, hm]
  rw [if_neg (by simp)]
  split
  · exact ⟨_, _, rfl⟩
  · rename_i hc
    exact absurd hcond hc

/-- C10 witness: the concrete boot descriptor behind `sampleState`,
navigated straight back to its boot page. -/
theorem C10_boot_page_loaded_witness :
    (initState sampleDescriptor).loadedPages = ["store.home"] ∧
    (onPageChanged false (initState sampleDescriptor)
      sampleHomeLocation).fetchRequest = none :=
  ⟨(C10_boot_page_loaded sampleDescriptor false sampleHomeLocation
      sampleHomeState rfl rfl rfl (by decide) (by decide)).1,
   (C10_boot_page_loaded sampleDescriptor false sampleHomeLocation
      sampleHomeState rfl rfl rfl (by decide) (by decide)).2.1⟩

end RenderRuntime
